import Mathlib

/-!
Shallow embedding of the attractor-simulation engine of the
`kewers/strangeattrs` repository.

The repository holds three prototype stages of the same program:

* `src/main.js`            — six models, single-substep Euler integrator;
* `src/unnamed/part_000`   — six models, classical RK4 integrator, with the
                             aizawa model scaled by a factor `k = 10`;
* `src/unnamed/part_001`   — lorenz only, Euler, and a reset that also
                             restores the default parameter values.

States are triples of exact rationals (the JS `number` arithmetic of the
engine is modelled as exact arithmetic; the only transcendental used by the
dynamics, `Math.sin`, is threaded through as an abstract function
`sn : ℚ → ℚ`, which no claim needs to evaluate).  The colour mapper uses
`Math.sin` and `Math.PI` at irrational points and is therefore modelled over
the real numbers with `Real.sin` and `Real.pi`.
-/

/-- State vector of the simulation: the current point `(x, y, z)`. -/
@[ext]
structure Vec3 where
  x : ℚ
  y : ℚ
  z : ℚ
deriving DecidableEq, Repr

/-- Componentwise sum, used by the spec-worded integrator combinators. -/
def Vec3.add (u v : Vec3) : Vec3 := ⟨u.x + v.x, u.y + v.y, u.z + v.z⟩

/-- Scalar multiple, used by the spec-worded integrator combinators. -/
def Vec3.smul (c : ℚ) (v : Vec3) : Vec3 := ⟨c * v.x, c * v.y, c * v.z⟩

/-- Lorenz coefficients (`params.lorenz` in the source). -/
structure LorenzParams where
  sigma : ℚ
  rho : ℚ
  beta : ℚ
  dt : ℚ
deriving DecidableEq, Repr

/-- Aizawa coefficients (`params.aizawa` in the source). -/
structure AizawaParams where
  a : ℚ
  b : ℚ
  c : ℚ
  d : ℚ
  e : ℚ
  f : ℚ
  dt : ℚ
deriving DecidableEq, Repr

/-- Rössler coefficients (`params.rossler` in the source). -/
structure RosslerParams where
  a : ℚ
  b : ℚ
  c : ℚ
  dt : ℚ
deriving DecidableEq, Repr

/-- Chen coefficients (`params.chen` in the source). -/
structure ChenParams where
  a : ℚ
  b : ℚ
  c : ℚ
  dt : ℚ
deriving DecidableEq, Repr

/-- Thomas coefficients (`params.thomas` in the source). -/
structure ThomasParams where
  b : ℚ
  dt : ℚ
deriving DecidableEq, Repr

/-- Dadras coefficients (`params.dadras` in the source). -/
structure DadrasParams where
  a : ℚ
  b : ℚ
  c : ℚ
  d : ℚ
  e : ℚ
  dt : ℚ
deriving DecidableEq, Repr

/-- The `params` object of `main.js` / `part_000`: one coefficient set per
model. -/
structure Params where
  lorenz : LorenzParams
  aizawa : AizawaParams
  rossler : RosslerParams
  chen : ChenParams
  thomas : ThomasParams
  dadras : DadrasParams
deriving DecidableEq, Repr

/-- Default parameter values, copied from the `params` literal of the
source (`main.js` lines 48–94; `part_000` has the same values). -/
def defaultParams : Params :=
  { lorenz := { sigma := 10, rho := 28, beta := 2.666, dt := 0.01 }
    aizawa := { a := 0.95, b := 0.7, c := 0.6, d := 3.5, e := 0.25, f := 0.1, dt := 0.01 }
    rossler := { a := 0.2, b := 0.2, c := 5.7, dt := 0.01 }
    chen := { a := 35, b := 3, c := 28, dt := 0.001 }
    thomas := { b := 0.208186, dt := 0.05 }
    dadras := { a := 3, b := 2.7, c := 1.7, d := 2, e := 9, dt := 0.01 } }

/-- The closed six-member model set (the cases of the `switch` in
`computeNextPoint` and the options of the model selector). -/
def sixModels : List String :=
  ["lorenz", "aizawa", "rossler", "chen", "thomas", "dadras"]

/-- Trail-buffer capacity, `const maxPoints = 10000` in the source. -/
def maxPoints : ℕ := 10000

/-! ### Derivative library (from `part_000`, lines 106–153) -/

/-- Lorenz derivatives (`lorenzDerivatives` in `part_000`). -/
def lorenzDerivatives (v : Vec3) (p : LorenzParams) : Vec3 :=
  ⟨p.sigma * (v.y - v.x), v.x * (p.rho - v.z) - v.y, v.x * v.y - p.beta * v.z⟩

/-- Aizawa derivatives with the scaling factor `k`
(`aizawaDerivatives` in `part_000`). -/
def aizawaDerivatives (v : Vec3) (p : AizawaParams) (k : ℚ) : Vec3 :=
  ⟨(v.z / k - p.b) * v.x - p.d * v.y,
   p.d * v.x + (v.z / k - p.b) * v.y,
   k * p.c + p.a * v.z - v.z * v.z * v.z / (3 * k * k)
     - (v.x * v.x + v.y * v.y) / k * (1 + p.e * v.z / k)
     + p.f * v.z * v.x * v.x * v.x / (k * k * k)⟩

/-- Rössler derivatives (`rosslerDerivatives` in `part_000`). -/
def rosslerDerivatives (v : Vec3) (p : RosslerParams) : Vec3 :=
  ⟨-v.y - v.z, v.x + p.a * v.y, p.b + v.z * (v.x - p.c)⟩

/-- Chen derivatives (`chenDerivatives` in `part_000`). -/
def chenDerivatives (v : Vec3) (p : ChenParams) : Vec3 :=
  ⟨p.a * (v.y - v.x), (p.c - p.a) * v.x - v.x * v.z + p.c * v.y, v.x * v.y - p.b * v.z⟩

/-- Thomas derivatives (`thomasDerivatives` in `part_000`); `sn` stands for
`Math.sin`. -/
def thomasDerivatives (sn : ℚ → ℚ) (v : Vec3) (p : ThomasParams) : Vec3 :=
  ⟨sn v.y - p.b * v.x, sn v.z - p.b * v.y, sn v.x - p.b * v.z⟩

/-- Dadras derivatives (`dadrasDerivatives` in `part_000`). -/
def dadrasDerivatives (v : Vec3) (p : DadrasParams) : Vec3 :=
  ⟨v.y - p.a * v.x + p.b * v.y * v.z, p.c * v.y - v.x * v.z + v.z, p.d * v.x * v.y - p.e * v.z⟩

/-! ### The integrator of `main.js` (`computeNextPoint`, lines 173–228) -/

/-- Deltas `(dx, dy, dz)` computed by the `switch` of `computeNextPoint`
in `main.js`: single-substep Euler, the derivative scaled by `dt` once.
An identifier outside the six cases leaves the zero initialisation. -/
def mainDeltas (sn : ℚ → ℚ) (attr : String) (p : Params) (v : Vec3) : Vec3 :=
  if attr = "lorenz" then
    ⟨p.lorenz.sigma * (v.y - v.x) * p.lorenz.dt,
     (v.x * (p.lorenz.rho - v.z) - v.y) * p.lorenz.dt,
     (v.x * v.y - p.lorenz.beta * v.z) * p.lorenz.dt⟩
  else if attr = "aizawa" then
    ⟨((v.z - p.aizawa.b) * v.x - p.aizawa.d * v.y) * p.aizawa.dt,
     (p.aizawa.d * v.x + (v.z - p.aizawa.b) * v.y) * p.aizawa.dt,
     (p.aizawa.c + p.aizawa.a * v.z - v.z * v.z * v.z / 3
       - (v.x * v.x + v.y * v.y) * (1 + p.aizawa.e * v.z)
       + p.aizawa.f * v.z * v.x * v.x * v.x) * p.aizawa.dt⟩
  else if attr = "rossler" then
    ⟨(-v.y - v.z) * p.rossler.dt,
     (v.x + p.rossler.a * v.y) * p.rossler.dt,
     (p.rossler.b + v.z * (v.x - p.rossler.c)) * p.rossler.dt⟩
  else if attr = "chen" then
    ⟨p.chen.a * (v.y - v.x) * p.chen.dt,
     ((p.chen.c - p.chen.a) * v.x - v.x * v.z + p.chen.c * v.y) * p.chen.dt,
     (v.x * v.y - p.chen.b * v.z) * p.chen.dt⟩
  else if attr = "thomas" then
    ⟨(sn v.y - p.thomas.b * v.x) * p.thomas.dt,
     (sn v.z - p.thomas.b * v.y) * p.thomas.dt,
     (sn v.x - p.thomas.b * v.z) * p.thomas.dt⟩
  else if attr = "dadras" then
    ⟨(v.y - p.dadras.a * v.x + p.dadras.b * v.y * v.z) * p.dadras.dt,
     (p.dadras.c * v.y - v.x * v.z + v.z) * p.dadras.dt,
     (p.dadras.d * v.x * v.y - p.dadras.e * v.z) * p.dadras.dt⟩
  else
    ⟨0, 0, 0⟩

/-- One step of `computeNextPoint` in `main.js`: `x += dx; y += dy; z += dz`
and the new point is returned. -/
def mainStep (sn : ℚ → ℚ) (attr : String) (p : Params) (v : Vec3) : Vec3 :=
  let d := mainDeltas sn attr p v
  ⟨v.x + d.x, v.y + d.y, v.z + d.z⟩

/-! ### The integrator of `part_000` (`computeNextPoint`, lines 217–349) -/

/-- The RK4 block each case of `part_000`'s `computeNextPoint` runs, with
the case's derivative function `f` and step `dt` abstracted: the source
repeats these lines verbatim six times (`k1 … k4`, each scaled by `dt`,
combined as `(k1 + 2*k2 + 2*k3 + k4)/6`). -/
def rk4Block (f : Vec3 → Vec3) (dt : ℚ) (v : Vec3) : Vec3 :=
  let d1 := f v
  let k1 : Vec3 := ⟨d1.x * dt, d1.y * dt, d1.z * dt⟩
  let d2 := f ⟨v.x + k1.x / 2, v.y + k1.y / 2, v.z + k1.z / 2⟩
  let k2 : Vec3 := ⟨d2.x * dt, d2.y * dt, d2.z * dt⟩
  let d3 := f ⟨v.x + k2.x / 2, v.y + k2.y / 2, v.z + k2.z / 2⟩
  let k3 : Vec3 := ⟨d3.x * dt, d3.y * dt, d3.z * dt⟩
  let d4 := f ⟨v.x + k3.x, v.y + k3.y, v.z + k3.z⟩
  let k4 : Vec3 := ⟨d4.x * dt, d4.y * dt, d4.z * dt⟩
  ⟨(k1.x + 2 * k2.x + 2 * k3.x + k4.x) / 6,
   (k1.y + 2 * k2.y + 2 * k3.y + k4.y) / 6,
   (k1.z + 2 * k2.z + 2 * k3.z + k4.z) / 6⟩

/-- Deltas computed by the `switch` of `computeNextPoint` in `part_000`:
each case runs the RK4 block over its derivative function and its `dt`;
aizawa passes the scale `k = 10`.  An identifier outside the six cases
leaves the zero initialisation. -/
def part000Deltas (sn : ℚ → ℚ) (attr : String) (p : Params) (v : Vec3) : Vec3 :=
  if attr = "lorenz" then rk4Block (fun u => lorenzDerivatives u p.lorenz) p.lorenz.dt v
  else if attr = "aizawa" then rk4Block (fun u => aizawaDerivatives u p.aizawa 10) p.aizawa.dt v
  else if attr = "rossler" then rk4Block (fun u => rosslerDerivatives u p.rossler) p.rossler.dt v
  else if attr = "chen" then rk4Block (fun u => chenDerivatives u p.chen) p.chen.dt v
  else if attr = "thomas" then rk4Block (fun u => thomasDerivatives sn u p.thomas) p.thomas.dt v
  else if attr = "dadras" then rk4Block (fun u => dadrasDerivatives u p.dadras) p.dadras.dt v
  else
    ⟨0, 0, 0⟩

/-- One step of `computeNextPoint` in `part_000`. -/
def part000Step (sn : ℚ → ℚ) (attr : String) (p : Params) (v : Vec3) : Vec3 :=
  let d := part000Deltas sn attr p v
  ⟨v.x + d.x, v.y + d.y, v.z + d.z⟩

/-! ### Spec-worded integrator combinators -/

/-- Modelled from the spec: the `derivative(model, state, params)` table of
§4.1 (raw per-second rates, unscaled aizawa). -/
def specDerivative (sn : ℚ → ℚ) (m : String) (p : Params) (v : Vec3) : Vec3 :=
  if m = "lorenz" then
    ⟨p.lorenz.sigma * (v.y - v.x), v.x * (p.lorenz.rho - v.z) - v.y,
     v.x * v.y - p.lorenz.beta * v.z⟩
  else if m = "aizawa" then
    ⟨(v.z - p.aizawa.b) * v.x - p.aizawa.d * v.y,
     p.aizawa.d * v.x + (v.z - p.aizawa.b) * v.y,
     p.aizawa.c + p.aizawa.a * v.z - v.z * v.z * v.z / 3
       - (v.x * v.x + v.y * v.y) * (1 + p.aizawa.e * v.z)
       + p.aizawa.f * v.z * v.x * v.x * v.x⟩
  else if m = "rossler" then
    ⟨-v.y - v.z, v.x + p.rossler.a * v.y, p.rossler.b + v.z * (v.x - p.rossler.c)⟩
  else if m = "chen" then
    ⟨p.chen.a * (v.y - v.x), (p.chen.c - p.chen.a) * v.x - v.x * v.z + p.chen.c * v.y,
     v.x * v.y - p.chen.b * v.z⟩
  else if m = "thomas" then
    ⟨sn v.y - p.thomas.b * v.x, sn v.z - p.thomas.b * v.y, sn v.x - p.thomas.b * v.z⟩
  else if m = "dadras" then
    ⟨v.y - p.dadras.a * v.x + p.dadras.b * v.y * v.z,
     p.dadras.c * v.y - v.x * v.z + v.z,
     p.dadras.d * v.x * v.y - p.dadras.e * v.z⟩
  else
    ⟨0, 0, 0⟩

/-- The derivative function each case of `part_000`'s `computeNextPoint`
integrates: the library functions above, with `k = 10` for aizawa. -/
def part000Derivative (sn : ℚ → ℚ) (m : String) (p : Params) (v : Vec3) : Vec3 :=
  if m = "lorenz" then lorenzDerivatives v p.lorenz
  else if m = "aizawa" then aizawaDerivatives v p.aizawa 10
  else if m = "rossler" then rosslerDerivatives v p.rossler
  else if m = "chen" then chenDerivatives v p.chen
  else if m = "thomas" then thomasDerivatives sn v p.thomas
  else if m = "dadras" then dadrasDerivatives v p.dadras
  else ⟨0, 0, 0⟩

/-- The step size each model's case reads (`params.<model>.dt`). -/
def dtOf (m : String) (p : Params) : ℚ :=
  if m = "lorenz" then p.lorenz.dt
  else if m = "aizawa" then p.aizawa.dt
  else if m = "rossler" then p.rossler.dt
  else if m = "chen" then p.chen.dt
  else if m = "thomas" then p.thomas.dt
  else if m = "dadras" then p.dadras.dt
  else 0

/-- Modelled from the spec: classical explicit 4th-order Runge–Kutta with
fixed step `h` (§4.2): `k1 = h·f(s)`, `k2 = h·f(s + k1/2)`,
`k3 = h·f(s + k2/2)`, `k4 = h·f(s + k3)`,
`newState = s + (k1 + 2·k2 + 2·k3 + k4)/6`. -/
def specRK4 (f : Vec3 → Vec3) (h : ℚ) (s : Vec3) : Vec3 :=
  let k1 := Vec3.smul h (f s)
  let k2 := Vec3.smul h (f (Vec3.add s (Vec3.smul (1/2) k1)))
  let k3 := Vec3.smul h (f (Vec3.add s (Vec3.smul (1/2) k2)))
  let k4 := Vec3.smul h (f (Vec3.add s k3))
  Vec3.add s (Vec3.smul (1/6)
    (Vec3.add k1 (Vec3.add (Vec3.smul 2 k2) (Vec3.add (Vec3.smul 2 k3) k4))))

/-- Modelled from the spec: single-substep explicit Euler,
`state += derivative(state)·dt` (§9, design note on the Euler variant). -/
def specEuler (f : Vec3 → Vec3) (h : ℚ) (s : Vec3) : Vec3 :=
  Vec3.add s (Vec3.smul h (f s))

/-! ### Colour mapper (`getColor`, `main.js` lines 231–237) -/

/-- Rainbow colour for a numeric index:
`phi = i / maxPoints * π * 2`, the three channels phase-shifted thirds of a
cycle.  `Math.sin` / `Math.PI` at irrational points are modelled with
`Real.sin` / `Real.pi`. -/
noncomputable def getColor (i : ℝ) : ℝ × ℝ × ℝ :=
  let phi := i / (maxPoints : ℝ) * Real.pi * 2
  (Real.sin phi * 0.5 + 0.5,
   Real.sin (phi + 2 * Real.pi / 3) * 0.5 + 0.5,
   Real.sin (phi + 4 * Real.pi / 3) * 0.5 + 0.5)

/-! ### Trail buffer (the `positions` / `colors` arrays and `pointCount`) -/

/-- Trail buffer state: the flat `positions` and `colors` arrays are
modelled slot-wise (one `Vec3` / colour triple per slot index), together
with the live count `pointCount`. -/
structure Buf where
  pos : ℕ → Vec3
  col : ℕ → ℝ × ℝ × ℝ
  count : ℕ

/-- Result of running the shift loop
`for (i = 0; i < n; i++) g[i] = g[i+1]` on a slot-indexed array `g`:
iteration `k` overwrites slot `k` with the current value of slot `k + 1`
(which earlier iterations have not touched). -/
def shiftIter (g : ℕ → α) : ℕ → (ℕ → α)
  | 0 => g
  | k + 1 => fun j => if j = k then shiftIter g k (k + 1) else shiftIter g k j

/-- The shift loop moves every slot below `n` down by one. -/
theorem shiftIter_eq (g : ℕ → α) (n j : ℕ) :
    shiftIter g n j = if j < n then g (j + 1) else g j := by
  induction n generalizing j with
  | zero => simp [shiftIter]
  | succ k ih =>
    simp only [shiftIter]
    rcases lt_trichotomy j k with h | h | h
    · rw [if_neg (by omega), ih, if_pos h, if_pos (by omega)]
    · subst h
      rw [if_pos rfl, ih, if_neg (by omega), if_pos (by omega)]
    · rw [if_neg (by omega), ih, if_neg (by omega), if_neg (by omega)]

/-- One append to the trail buffer, as the animation loop of `main.js`
does it (lines 250–283): below capacity the point and its colour
`getColor(pointCount)` are written at slot `pointCount` and the count
grows; at capacity every slot is shifted down by one (discarding slot 0)
and the point is written at the last slot with colour
`getColor(capacity − 1)`, the count unchanged. -/
noncomputable def bufAppend (cap : ℕ) (b : Buf) (v : Vec3) : Buf :=
  if b.count < cap then
    { pos := fun j => if j = b.count then v else b.pos j
      col := fun j => if j = b.count then getColor (b.count : ℝ) else b.col j
      count := b.count + 1 }
  else
    { pos := fun j => if j = cap - 1 then v else shiftIter b.pos (cap - 1) j
      col := fun j => if j = cap - 1 then getColor ((cap - 1 : ℕ) : ℝ)
                      else shiftIter b.col (cap - 1) j
      count := b.count }

/-- The cleared buffer (`pointCount = 0`, both arrays filled with zeros). -/
def emptyBuf : Buf :=
  { pos := fun _ => ⟨0, 0, 0⟩, col := fun _ => (0, 0, 0), count := 0 }

/-! ### The engine state of `main.js` (module-level variables) -/

/-- Module-level simulation state of `main.js`: the current point
`(x, y, z)`, the active model `currentAttractor`, the parameter object and
the trail buffer. -/
structure Engine where
  x : ℚ
  y : ℚ
  z : ℚ
  currentAttractor : String
  params : Params
  buf : Buf

/-- The function `resetAttractor` of `main.js` (lines 107–123): the point
returns to `(0.1, 0, 0)`, the buffer is cleared; `currentAttractor` and
`params` are untouched (`updateUIFromParams` only writes the DOM). -/
def resetAttractor (e : Engine) : Engine :=
  { e with x := 0.1, y := 0, z := 0, buf := emptyBuf }

/-- The function `changeAttractor` of `main.js` (lines 167–170): the given
identifier is stored as `currentAttractor` unconditionally, then
`resetAttractor` runs.  There is no membership check and no error path. -/
def changeAttractor (m : String) (e : Engine) : Engine :=
  resetAttractor { e with currentAttractor := m }

/-- One iteration of the `animate` loop of `main.js` restricted to the
engine (lines 240–288): `computeNextPoint` advances the state and the new
point is appended to the trail buffer.  The `updateParametersFromUI` call
is the identity here (no slider edit between frames); the scenario with an
edit is modelled separately below. -/
noncomputable def animateStep (sn : ℚ → ℚ) (e : Engine) : Engine :=
  let v := mainStep sn e.currentAttractor e.params ⟨e.x, e.y, e.z⟩
  { e with x := v.x, y := v.y, z := v.z, buf := bufAppend maxPoints e.buf v }

/-- The engine after `n` animation frames. -/
noncomputable def engineRun (sn : ℚ → ℚ) (e : Engine) (n : ℕ) : Engine :=
  (animateStep sn)^[n] e

/-- The engine as created at startup: state `(0.1, 0, 0)`, model
`lorenz`, default parameters, empty trail. -/
def initialEngine : Engine :=
  { x := 0.1, y := 0, z := 0, currentAttractor := "lorenz",
    params := defaultParams, buf := emptyBuf }

/-- A trivial stand-in for `Math.sin` used to instantiate closed
statements whose evaluation never reaches a `sin` call. -/
def zeroSin : ℚ → ℚ := fun _ => 0

/-! ### The reset of `part_000` (lines 156–174) -/

/-- The function `resetAttractor` of `part_000`: with `k = 10`, the aizawa
model resets to `(0.1·k, 0·k, 0·k) = (1, 0, 0)` while every other model
resets to `(0.1, 0, 0)`; the buffer is cleared and `params` untouched. -/
def p000resetAttractor (e : Engine) : Engine :=
  if e.currentAttractor = "aizawa" then
    { e with x := 0.1 * 10, y := 0 * 10, z := 0 * 10, buf := emptyBuf }
  else
    { e with x := 0.1, y := 0, z := 0, buf := emptyBuf }

/-! ### The engine state and reset of `part_001` (lines 18–74) -/

/-- Module-level state of `part_001`: lorenz coefficients as individual
variables, the current point and the positions-only trail buffer. -/
structure State001 where
  sigma : ℚ
  rho : ℚ
  beta : ℚ
  dt : ℚ
  x : ℚ
  y : ℚ
  z : ℚ
  pointCount : ℕ
  positions : ℕ → Vec3

/-- The function `resetAttractor` of `part_001` (lines 51–74): it restores
`sigma`, `rho`, `beta` and `dt` to their default values — the parameters
are reset along with the point and the buffer. -/
def p001resetAttractor (_s : State001) : State001 :=
  { sigma := 10, rho := 28, beta := 2.666, dt := 0.01,
    x := 0.1, y := 0, z := 0,
    pointCount := 0, positions := fun _ => ⟨0, 0, 0⟩ }

/-! ### JavaScript number semantics for the parameter-write path -/

/-- JavaScript number for the parameter-write path: either NaN or a finite
value (modelled exactly).  `parseFloat('not-a-number')` is `JsNum.nan`. -/
inductive JsNum where
  | nan : JsNum
  | num : ℚ → JsNum
deriving DecidableEq, Repr

/-- JavaScript addition: NaN is absorbing. -/
def JsNum.add : JsNum → JsNum → JsNum
  | JsNum.num a, JsNum.num b => JsNum.num (a + b)
  | _, _ => JsNum.nan

/-- JavaScript subtraction: NaN is absorbing. -/
def JsNum.sub : JsNum → JsNum → JsNum
  | JsNum.num a, JsNum.num b => JsNum.num (a - b)
  | _, _ => JsNum.nan

/-- JavaScript multiplication: NaN is absorbing (even `0 * NaN` is NaN). -/
def JsNum.mul : JsNum → JsNum → JsNum
  | JsNum.num a, JsNum.num b => JsNum.num (a * b)
  | _, _ => JsNum.nan

instance : Add JsNum := ⟨JsNum.add⟩

instance : Sub JsNum := ⟨JsNum.sub⟩

instance : Mul JsNum := ⟨JsNum.mul⟩

/-- The lorenz parameter set with JavaScript number semantics, for the
parameter-write path. -/
structure LorenzParamsJ where
  sigma : JsNum
  rho : JsNum
  beta : JsNum
  dt : JsNum
deriving DecidableEq, Repr

/-- The function `updateParametersFromUI` of `main.js` (lines 154–164),
instantiated at the lorenz parameter set: for every key whose slider
exists, the parsed slider value is stored **unconditionally** —
`currentParams[key] = parseFloat(input.value)` has no finiteness guard.
`ui` maps a key to the `parseFloat` of its slider's value (`none` when the
element is missing). -/
def updateParametersFromUI (ui : String → Option JsNum) (p : LorenzParamsJ) : LorenzParamsJ :=
  { sigma := (ui "sigma").getD p.sigma
    rho := (ui "rho").getD p.rho
    beta := (ui "beta").getD p.beta
    dt := (ui "dt").getD p.dt }

/-- The lorenz case of `computeNextPoint` (`main.js` lines 177–182, 223–225)
with JavaScript number semantics. -/
def mainStepLorenzJ (p : LorenzParamsJ) (x y z : JsNum) : JsNum × JsNum × JsNum :=
  let dx := p.sigma * (y - x) * p.dt
  let dy := (x * (p.rho - z) - y) * p.dt
  let dz := (x * y - p.beta * z) * p.dt
  (x + dx, y + dy, z + dz)

/-- The default lorenz parameters as JavaScript numbers. -/
def defaultLorenzJ : LorenzParamsJ :=
  { sigma := JsNum.num 10, rho := JsNum.num 28,
    beta := JsNum.num 2.666, dt := JsNum.num 0.01 }

/-- The UI state of the claim scenario: every lorenz slider present and at
its default, except `rho`, whose field reads `'not-a-number'` — so
`parseFloat` yields NaN. -/
def badRhoUI : String → Option JsNum :=
  fun k =>
    if k = "sigma" then some (JsNum.num 10)
    else if k = "rho" then some JsNum.nan
    else if k = "beta" then some (JsNum.num 2.666)
    else if k = "dt" then some (JsNum.num 0.01)
    else none

/-! ### Invariant of the animation loop -/

/-- Complete characterisation of the engine after `n` frames from an empty
trail: the model and parameters never change, the point is the `n`-th
iterate of the stepper, the live count is `min n capacity`, slot `i` of
the trail holds trajectory point `n − min n capacity + i + 1` (so the
buffer is the most recent `min n capacity` points, oldest first, and the
initial condition is never stored), and the colour at slot `i` is the one
assigned when its point was appended, `getColor (min (i + overshoot)
(capacity − 1))` where `overshoot = n − min n capacity` counts the
evictions so far. -/
theorem engineRun_spec (sn : ℚ → ℚ) (e : Engine) (h0 : e.buf.count = 0) (n : ℕ) :
    (engineRun sn e n).currentAttractor = e.currentAttractor ∧
    (engineRun sn e n).params = e.params ∧
    (⟨(engineRun sn e n).x, (engineRun sn e n).y, (engineRun sn e n).z⟩ : Vec3)
      = (mainStep sn e.currentAttractor e.params)^[n] ⟨e.x, e.y, e.z⟩ ∧
    (engineRun sn e n).buf.count = min n maxPoints ∧
    (∀ i, i < min n maxPoints →
      (engineRun sn e n).buf.pos i
        = (mainStep sn e.currentAttractor e.params)^[n - min n maxPoints + i + 1]
            ⟨e.x, e.y, e.z⟩) ∧
    (∀ i, i < min n maxPoints →
      (engineRun sn e n).buf.col i
        = getColor ((min (i + (n - min n maxPoints)) (maxPoints - 1) : ℕ) : ℝ)) := by
  induction n with
  | zero =>
    refine ⟨rfl, rfl, rfl, by simpa using h0, ?_, ?_⟩ <;>
      · intro i hi
        simp only [Nat.zero_min] at hi
        exact absurd hi (Nat.not_lt_zero i)
  | succ n ih =>
    obtain ⟨ha, hp, hs, hc, hpos, hcol⟩ := ih
    have hrun : engineRun sn e (n + 1) = animateStep sn (engineRun sn e n) :=
      Function.iterate_succ_apply' (animateStep sn) n e
    have hv : mainStep sn (engineRun sn e n).currentAttractor (engineRun sn e n).params
        ⟨(engineRun sn e n).x, (engineRun sn e n).y, (engineRun sn e n).z⟩
        = (mainStep sn e.currentAttractor e.params)^[n + 1] ⟨e.x, e.y, e.z⟩ := by
      rw [ha, hp, hs, Function.iterate_succ_apply']
    have hbuf : (engineRun sn e (n + 1)).buf
        = bufAppend maxPoints (engineRun sn e n).buf
            ((mainStep sn e.currentAttractor e.params)^[n + 1] ⟨e.x, e.y, e.z⟩) := by
      rw [hrun, ← hv]; rfl
    have ha' : (engineRun sn e (n + 1)).currentAttractor = e.currentAttractor := by
      rw [hrun]; exact ha
    have hp' : (engineRun sn e (n + 1)).params = e.params := by
      rw [hrun]; exact hp
    have hs' : (⟨(engineRun sn e (n + 1)).x, (engineRun sn e (n + 1)).y,
          (engineRun sn e (n + 1)).z⟩ : Vec3)
        = (mainStep sn e.currentAttractor e.params)^[n + 1] ⟨e.x, e.y, e.z⟩ := by
      rw [hrun]; exact hv
    by_cases hn : n < maxPoints
    · -- growth branch: the slot `count` is written and the count increments
      have hlt : (engineRun sn e n).buf.count < maxPoints := by omega
      have hcnt : (engineRun sn e n).buf.count = n := by omega
      refine ⟨ha', hp', hs', ?_, ?_, ?_⟩
      · rw [hbuf]; simp only [bufAppend, if_pos hlt]; omega
      · intro i hi
        rw [hbuf]; simp only [bufAppend, if_pos hlt]
        by_cases hi2 : i = (engineRun sn e n).buf.count
        · rw [if_pos hi2]
          have hexp : n + 1 - min (n + 1) maxPoints + i + 1 = n + 1 := by omega
          rw [hexp]
        · rw [if_neg hi2]
          have hi3 : i < min n maxPoints := by omega
          have hexp : n - min n maxPoints + i + 1
              = n + 1 - min (n + 1) maxPoints + i + 1 := by omega
          rw [hpos i hi3, hexp]
      · intro i hi
        rw [hbuf]; simp only [bufAppend, if_pos hlt]
        by_cases hi2 : i = (engineRun sn e n).buf.count
        · rw [if_pos hi2]
          have hexp : (engineRun sn e n).buf.count
              = min (i + (n + 1 - min (n + 1) maxPoints)) (maxPoints - 1) := by omega
          rw [hexp]
        · rw [if_neg hi2]
          have hi3 : i < min n maxPoints := by omega
          have hexp : min (i + (n - min n maxPoints)) (maxPoints - 1)
              = min (i + (n + 1 - min (n + 1) maxPoints)) (maxPoints - 1) := by omega
          rw [hcol i hi3, hexp]
    · -- eviction branch: every slot slides down and the last slot is written
      have hge : ¬ (engineRun sn e n).buf.count < maxPoints := by omega
      refine ⟨ha', hp', hs', ?_, ?_, ?_⟩
      · rw [hbuf]; simp only [bufAppend, if_neg hge]; omega
      · intro i hi
        rw [hbuf]; simp only [bufAppend, if_neg hge]
        by_cases hi2 : i = maxPoints - 1
        · rw [if_pos hi2]
          have hexp : n + 1 - min (n + 1) maxPoints + i + 1 = n + 1 := by omega
          rw [hexp]
        · rw [if_neg hi2, shiftIter_eq, if_pos (by omega)]
          have hi3 : i + 1 < min n maxPoints := by omega
          have hexp : n - min n maxPoints + (i + 1) + 1
              = n + 1 - min (n + 1) maxPoints + i + 1 := by omega
          rw [hpos (i + 1) hi3, hexp]
      · intro i hi
        rw [hbuf]; simp only [bufAppend, if_neg hge]
        by_cases hi2 : i = maxPoints - 1
        · rw [if_pos hi2]
          have hexp : min (i + (n + 1 - min (n + 1) maxPoints)) (maxPoints - 1)
              = maxPoints - 1 := by omega
          rw [hexp]
        · rw [if_neg hi2, shiftIter_eq, if_pos (by omega)]
          have hi3 : i + 1 < min n maxPoints := by omega
          have hexp : min ((i + 1) + (n - min n maxPoints)) (maxPoints - 1)
              = min (i + (n + 1 - min (n + 1) maxPoints)) (maxPoints - 1) := by omega
          rw [hcol (i + 1) hi3, hexp]

/-! ### Concrete states used by closed statements -/

/-- A reachable-looking engine state with a part-full trail, used to make
state changes observable in closed statements. -/
def sampleEngine : Engine :=
  { x := 5, y := 6, z := 7, currentAttractor := "lorenz", params := defaultParams,
    buf := { pos := fun _ => ⟨1, 2, 3⟩, col := fun _ => (0, 0, 0), count := 3 } }

/-- An engine state whose active model is aizawa. -/
def aizawaEngine : Engine :=
  { x := 5, y := 6, z := 7, currentAttractor := "aizawa", params := defaultParams,
    buf := emptyBuf }

/-- An engine state whose active model identifier is outside the
six-member set. -/
def fooEngine : Engine :=
  { x := 0.1, y := 0, z := 0, currentAttractor := "foo", params := defaultParams,
    buf := emptyBuf }

/-- A `part_001` state whose `sigma` has been edited away from its
default. -/
def editedState001 : State001 :=
  { sigma := 99, rho := 28, beta := 2.666, dt := 0.01, x := 3, y := 4, z := 5,
    pointCount := 7, positions := fun _ => ⟨0, 0, 0⟩ }

/-! ### Bridging lemmas between the source integrators and the spec -/

/-- Adding half of a `dt`-scaled vector, written the way the source spells
it, equals the spec-worded `s + (1/2)·(h·w)`. -/
theorem vadd_half (u w : Vec3) (dt : ℚ) :
    (⟨u.x + w.x * dt / 2, u.y + w.y * dt / 2, u.z + w.z * dt / 2⟩ : Vec3)
      = Vec3.add u (Vec3.smul (1/2) (Vec3.smul dt w)) := by
  simp only [Vec3.add, Vec3.smul]
  ext <;> ring

/-- Adding a `dt`-scaled vector, written the way the source spells it,
equals the spec-worded `s + h·w`. -/
theorem vadd_full (u w : Vec3) (dt : ℚ) :
    (⟨u.x + w.x * dt, u.y + w.y * dt, u.z + w.z * dt⟩ : Vec3)
      = Vec3.add u (Vec3.smul dt w) := by
  simp only [Vec3.add, Vec3.smul]
  ext <;> ring

/-- The inline RK4 block of `part_000`, followed by the final
`x += dx; y += dy; z += dz`, is exactly the spec's RK4 formula. -/
theorem rk4Block_step (f : Vec3 → Vec3) (dt : ℚ) (v : Vec3) :
    (⟨v.x + (rk4Block f dt v).x, v.y + (rk4Block f dt v).y, v.z + (rk4Block f dt v).z⟩ : Vec3)
      = specRK4 f dt v := by
  simp only [rk4Block, specRK4]
  rw [vadd_half v (f v) dt]
  set w2 := f (Vec3.add v (Vec3.smul (1/2) (Vec3.smul dt (f v)))) with hw2
  rw [vadd_half v w2 dt]
  set w3 := f (Vec3.add v (Vec3.smul (1/2) (Vec3.smul dt w2))) with hw3
  rw [vadd_full v w3 dt]
  set w4 := f (Vec3.add v (Vec3.smul dt w3)) with hw4
  simp only [Vec3.add, Vec3.smul]
  ext <;> ring

/-- A model identifier outside the six cases leaves the state unchanged:
the `switch` falls through with the deltas still zero-initialised. -/
theorem mainStep_unknown (sn : ℚ → ℚ) (m : String) (p : Params) (v : Vec3)
    (hm : m ∉ sixModels) : mainStep sn m p v = v := by
  simp only [sixModels, List.mem_cons, List.not_mem_nil, or_false, not_or] at hm
  obtain ⟨h1, h2, h3, h4, h5, h6⟩ := hm
  simp only [mainStep, mainDeltas, if_neg h1, if_neg h2, if_neg h3, if_neg h4, if_neg h5,
    if_neg h6]
  ext <;> simp

/-- Adjacent colour-mapper outputs differ: the red channel of slot 1 is
strictly above the `0.5` of slot 0. -/
theorem getColor_one_ne_zero : getColor ((1 : ℕ) : ℝ) ≠ getColor ((0 : ℕ) : ℝ) := by
  unfold getColor
  intro h
  have h1 := congrArg Prod.fst h
  simp only [Nat.cast_one, Nat.cast_zero] at h1
  rw [zero_div, zero_mul, zero_mul, Real.sin_zero] at h1
  have hm : (maxPoints : ℝ) = 10000 := by norm_num [maxPoints]
  rw [hm] at h1
  have hpos : 0 < Real.sin ((1 : ℝ) / (10000 : ℝ) * Real.pi * 2) := by
    apply Real.sin_pos_of_pos_of_lt_pi
    · have := Real.pi_pos
      positivity
    · have hpi := Real.pi_pos
      have hlt := Real.pi_le_four
      nlinarith [hpi, hlt]
  nlinarith [hpos, h1]

/-! ### Claims -/

/-- Claim C1, corrected.  The claim as frozen is false: in `main.js` (the
entry variant) `computeNextPoint` advances every model by single-substep
Euler, so RK4 is not the default integrator — see the counterexample
below.  What holds: for every model of the six-member set, every state,
every parameter set (and every interpretation of `Math.sin`), one step of
`part_000`'s `computeNextPoint` is exactly the spec's classical RK4 over
that case's derivative function with fixed step `h = params.dt`, while one
step of `main.js`'s `computeNextPoint` is exactly single-substep Euler
over the §4.1 derivative table. -/
theorem claim_C1_thm (sn : ℚ → ℚ) (p : Params) (v : Vec3) (m : String)
    (hm : m ∈ sixModels) :
    part000Step sn m p v = specRK4 (part000Derivative sn m p) (dtOf m p) v
      ∧ mainStep sn m p v = specEuler (specDerivative sn m p) (dtOf m p) v := by
  simp only [sixModels, List.mem_cons, List.not_mem_nil, or_false] at hm
  rcases hm with rfl | rfl | rfl | rfl | rfl | rfl
  · exact ⟨rk4Block_step (fun u => lorenzDerivatives u p.lorenz) p.lorenz.dt v, by
      simp only [mainStep, mainDeltas, specEuler, specDerivative, dtOf, Vec3.add, Vec3.smul,
        String.reduceEq, reduceIte]
      ext <;> ring⟩
  · exact ⟨rk4Block_step (fun u => aizawaDerivatives u p.aizawa 10) p.aizawa.dt v, by
      simp only [mainStep, mainDeltas, specEuler, specDerivative, dtOf, Vec3.add, Vec3.smul,
        String.reduceEq, reduceIte]
      ext <;> ring⟩
  · exact ⟨rk4Block_step (fun u => rosslerDerivatives u p.rossler) p.rossler.dt v, by
      simp only [mainStep, mainDeltas, specEuler, specDerivative, dtOf, Vec3.add, Vec3.smul,
        String.reduceEq, reduceIte]
      ext <;> ring⟩
  · exact ⟨rk4Block_step (fun u => chenDerivatives u p.chen) p.chen.dt v, by
      simp only [mainStep, mainDeltas, specEuler, specDerivative, dtOf, Vec3.add, Vec3.smul,
        String.reduceEq, reduceIte]
      ext <;> ring⟩
  · exact ⟨rk4Block_step (fun u => thomasDerivatives sn u p.thomas) p.thomas.dt v, by
      simp only [mainStep, mainDeltas, specEuler, specDerivative, dtOf, Vec3.add, Vec3.smul,
        String.reduceEq, reduceIte]
      ext <;> ring⟩
  · exact ⟨rk4Block_step (fun u => dadrasDerivatives u p.dadras) p.dadras.dt v, by
      simp only [mainStep, mainDeltas, specEuler, specDerivative, dtOf, Vec3.add, Vec3.smul,
        String.reduceEq, reduceIte]
      ext <;> ring⟩

/-- Claim C1, witness: the theorem instantiated at the lorenz model with
default parameters and the canonical initial state. -/
theorem claim_C1_wit :
    part000Step zeroSin "lorenz" defaultParams ⟨0.1, 0, 0⟩
        = specRK4 (part000Derivative zeroSin "lorenz" defaultParams)
            (dtOf "lorenz" defaultParams) ⟨0.1, 0, 0⟩ ∧
    mainStep zeroSin "lorenz" defaultParams ⟨0.1, 0, 0⟩
        = specEuler (specDerivative zeroSin "lorenz" defaultParams)
            (dtOf "lorenz" defaultParams) ⟨0.1, 0, 0⟩ :=
  claim_C1_thm zeroSin defaultParams ⟨0.1, 0, 0⟩ "lorenz" (by simp [sixModels])

/-- Claim C1, counterexample: at the lorenz model with default parameters
and the canonical initial state, the step of `main.js` is not the spec's
RK4 step — so `step()` in the default variant does not advance by RK4. -/
theorem claim_C1_cex :
    mainStep zeroSin "lorenz" defaultParams ⟨0.1, 0, 0⟩
      ≠ specRK4 (specDerivative zeroSin "lorenz" defaultParams)
          (dtOf "lorenz" defaultParams) ⟨0.1, 0, 0⟩ := by
  norm_num [mainStep, mainDeltas, specRK4, specDerivative, dtOf, defaultParams,
    Vec3.add, Vec3.smul, Vec3.ext_iff]

/-- Claim C2, corrected.  The claim as frozen speaks of "a single
`step()`"; `main.js`'s Euler step lands at `(0.09, 0.028, 0)`, which
misses the stated target by about `1.8e-3` in `x` (counterexample below).
What holds: a single step of the RK4 integrator (`part_000`'s
`computeNextPoint`) on the lorenz model with defaults `sigma = 10`,
`rho = 28`, `beta = 2.666`, `dt = 0.01` from `(0.1, 0, 0)` is within
`1e-4` of `(0.091793, 0.026634, 0.0000126)` in every coordinate. -/
theorem claim_C2_thm :
    |(part000Step zeroSin "lorenz" defaultParams ⟨0.1, 0, 0⟩).x - 0.091793| ≤ 0.0001 ∧
    |(part000Step zeroSin "lorenz" defaultParams ⟨0.1, 0, 0⟩).y - 0.026634| ≤ 0.0001 ∧
    |(part000Step zeroSin "lorenz" defaultParams ⟨0.1, 0, 0⟩).z - 0.0000126| ≤ 0.0001 := by
  norm_num [part000Step, part000Deltas, rk4Block, lorenzDerivatives, defaultParams, abs_le]

/-- Claim C2, counterexample: the single `step()` of `main.js` (the Euler
variant) from the same initial data is not within `1e-4` of the stated
target in every coordinate. -/
theorem claim_C2_cex :
    ¬ (|(mainStep zeroSin "lorenz" defaultParams ⟨0.1, 0, 0⟩).x - 0.091793| ≤ 0.0001 ∧
       |(mainStep zeroSin "lorenz" defaultParams ⟨0.1, 0, 0⟩).y - 0.026634| ≤ 0.0001 ∧
       |(mainStep zeroSin "lorenz" defaultParams ⟨0.1, 0, 0⟩).z - 0.0000126| ≤ 0.0001) := by
  intro h
  exact absurd h.1 (by norm_num [mainStep, mainDeltas, defaultParams, abs_le])

/-- Claim C3, code bug, evaluated at the failing input.  The write path
`currentParams[key] = parseFloat(input.value)` has no finiteness guard:
with the `rho` slider reading `'not-a-number'` (so `parseFloat` yields
NaN), `updateParametersFromUI` stores NaN into `rho` instead of retaining
the previous value `28`, and the next lorenz step drives the `y`
coordinate to NaN — NaN does enter the integrator. -/
theorem claim_C3_thm :
    (updateParametersFromUI badRhoUI defaultLorenzJ).rho = JsNum.nan ∧
    (updateParametersFromUI badRhoUI defaultLorenzJ).rho ≠ defaultLorenzJ.rho ∧
    (mainStepLorenzJ (updateParametersFromUI badRhoUI defaultLorenzJ)
        (JsNum.num 0.1) (JsNum.num 0) (JsNum.num 0)).2.1 = JsNum.nan := by
  refine ⟨rfl, by simp [updateParametersFromUI, badRhoUI, defaultLorenzJ], ?_⟩
  simp [mainStepLorenzJ, updateParametersFromUI, badRhoUI, defaultLorenzJ,
    HMul.hMul, Mul.mul, HSub.hSub, Sub.sub, HAdd.hAdd, Add.add, JsNum.mul, JsNum.sub, JsNum.add]

/-- Claim C4, code bug, evaluated at the failing input.  `changeAttractor`
performs no membership check: called with `'foo'` (outside the six-member
set) it succeeds silently, stores `'foo'` as the active model, and resets
the state vector and the trail — the engine state is changed, and no
model-not-found error exists in the code (the function is total). -/
theorem claim_C4_thm :
    "foo" ∉ sixModels ∧
    (changeAttractor "foo" sampleEngine).currentAttractor = "foo" ∧
    (changeAttractor "foo" sampleEngine).x = 0.1 ∧
    (changeAttractor "foo" sampleEngine).buf.count = 0 ∧
    sampleEngine.currentAttractor = "lorenz" ∧
    sampleEngine.x = 5 ∧
    sampleEngine.buf.count = 3 := by
  exact ⟨by simp [sixModels], rfl, rfl, rfl, rfl, rfl, rfl⟩

/-- Claim C5, corrected.  The claim as frozen fails on two of the three
source variants (counterexample below): `part_000` resets the aizawa model
to `(1, 0, 0)` (the `k = 10` scaling), and `part_001`'s reset restores the
default parameter values.  What holds: in `main.js`, `reset()` sets the
state to `(0.1, 0, 0)` for every model, empties the trail buffer and
leaves the parameters and the active model untouched; in `part_000` the
parameters are likewise untouched but the aizawa initial state is
`(1, 0, 0)`; in `part_001` the reset also overwrites the parameters with
their defaults. -/
theorem claim_C5_thm :
    (∀ e : Engine,
      (resetAttractor e).x = 0.1 ∧ (resetAttractor e).y = 0 ∧ (resetAttractor e).z = 0 ∧
      (resetAttractor e).buf.count = 0 ∧ (resetAttractor e).params = e.params ∧
      (resetAttractor e).currentAttractor = e.currentAttractor) ∧
    (∀ f : Engine, f.currentAttractor = "aizawa" →
      (p000resetAttractor f).x = 1 ∧ (p000resetAttractor f).params = f.params) ∧
    (∀ g : State001,
      (p001resetAttractor g).sigma = 10 ∧ (p001resetAttractor g).rho = 28 ∧
      (p001resetAttractor g).x = 0.1 ∧ (p001resetAttractor g).pointCount = 0) := by
  refine ⟨fun e => ⟨rfl, rfl, rfl, rfl, rfl, rfl⟩, fun f hf => ⟨?_, ?_⟩,
    fun g => ⟨rfl, rfl, rfl, rfl⟩⟩
  · simp only [p000resetAttractor, if_pos hf]
    norm_num
  · simp only [p000resetAttractor, if_pos hf]

/-- Claim C5, witness: the theorem instantiated at concrete engine
states, the aizawa hypothesis discharged by computation. -/
theorem claim_C5_wit :
    (resetAttractor sampleEngine).params = sampleEngine.params ∧
    (p000resetAttractor aizawaEngine).x = 1 ∧
    (p001resetAttractor editedState001).sigma = 10 :=
  ⟨(claim_C5_thm.1 sampleEngine).2.2.2.2.1,
   (claim_C5_thm.2.1 aizawaEngine rfl).1,
   (claim_C5_thm.2.2 editedState001).1⟩

/-- Claim C5, counterexample: `part_000`'s reset puts the aizawa state at
`x = 1`, not `0.1` — so the canonical initial condition is not the same
for all models across the sources — and `part_001`'s reset overwrites an
edited `sigma = 99` back to the default `10` — so parameter values are not
left unchanged. -/
theorem claim_C5_cex :
    (p000resetAttractor aizawaEngine).x = 1 ∧ (1 : ℚ) ≠ 0.1 ∧
    (p001resetAttractor editedState001).sigma = 10 ∧ editedState001.sigma = 99 ∧
    (10 : ℚ) ≠ 99 := by
  refine ⟨?_, by norm_num, rfl, rfl, by norm_num⟩
  simp only [p000resetAttractor, aizawaEngine, String.reduceEq, reduceIte]
  norm_num

/-- Claim C6, confirmed.  From any engine with an empty trail: after `N`
animation frames, every live slot `i < min N capacity` holds trajectory
point number `N − min N capacity + i + 1`, so the buffer content is
exactly the most recent `min N capacity` trajectory points in
oldest-to-newest order (each eviction discards exactly the oldest point);
and after exactly `capacity` frames slot 0 holds the result of the first
step — never the initial condition, which is not appended. -/
theorem claim_C6_thm (sn : ℚ → ℚ) (e : Engine) (h0 : e.buf.count = 0) :
    (∀ N i, i < min N maxPoints →
      (engineRun sn e N).buf.pos i
        = (mainStep sn e.currentAttractor e.params)^[N - min N maxPoints + i + 1]
            ⟨e.x, e.y, e.z⟩) ∧
    (engineRun sn e maxPoints).buf.pos 0
      = mainStep sn e.currentAttractor e.params ⟨e.x, e.y, e.z⟩ := by
  constructor
  · intro N i hi
    exact (engineRun_spec sn e h0 N).2.2.2.2.1 i hi
  · have h := (engineRun_spec sn e h0 maxPoints).2.2.2.2.1 0 (by simp [maxPoints])
    simpa using h

/-- Claim C6, witness: the theorem instantiated at the startup engine
after two frames (slot 0 then holds the first step), with the general
clause read at slot 0. -/
theorem claim_C6_wit :
    (engineRun zeroSin initialEngine 2).buf.pos 0
        = (mainStep zeroSin initialEngine.currentAttractor
            initialEngine.params)^[2 - min 2 maxPoints + 0 + 1]
            ⟨initialEngine.x, initialEngine.y, initialEngine.z⟩ ∧
    (engineRun zeroSin initialEngine maxPoints).buf.pos 0
        = mainStep zeroSin initialEngine.currentAttractor initialEngine.params
            ⟨initialEngine.x, initialEngine.y, initialEngine.z⟩ :=
  ⟨(claim_C6_thm zeroSin initialEngine rfl).1 2 0 (by decide),
   (claim_C6_thm zeroSin initialEngine rfl).2⟩

/-- Claim C7, confirmed.  From any engine with an empty trail: after `N`
frames the live count never exceeds the capacity; once `N ≥ capacity` it
equals the capacity; and each frame updates it to
`min (previous + 1) capacity` — below capacity it grows by exactly one,
at capacity it stays fixed. -/
theorem claim_C7_thm (sn : ℚ → ℚ) (e : Engine) (h0 : e.buf.count = 0) (N : ℕ) :
    (engineRun sn e N).buf.count ≤ maxPoints ∧
    (maxPoints ≤ N → (engineRun sn e N).buf.count = maxPoints) ∧
    (engineRun sn e (N + 1)).buf.count
      = min ((engineRun sn e N).buf.count + 1) maxPoints := by
  have h1 := (engineRun_spec sn e h0 N).2.2.2.1
  have h2 := (engineRun_spec sn e h0 (N + 1)).2.2.2.1
  exact ⟨by omega, by omega, by omega⟩

/-- Claim C7, witness: the theorem instantiated at the startup engine
after exactly `capacity` frames. -/
theorem claim_C7_wit :
    (engineRun zeroSin initialEngine maxPoints).buf.count ≤ maxPoints ∧
    (engineRun zeroSin initialEngine maxPoints).buf.count = maxPoints ∧
    (engineRun zeroSin initialEngine (maxPoints + 1)).buf.count
      = min ((engineRun zeroSin initialEngine maxPoints).buf.count + 1) maxPoints :=
  ⟨(claim_C7_thm zeroSin initialEngine rfl maxPoints).1,
   (claim_C7_thm zeroSin initialEngine rfl maxPoints).2.1 (by decide),
   (claim_C7_thm zeroSin initialEngine rfl maxPoints).2.2⟩

/-- Claim C8, corrected.  The claim as frozen is false once the buffer is
full: the eviction loop shifts the colour entries together with the
positions, so the colour stored at a slot is the one assigned when its
point was appended, not the mapper output for the slot it currently
occupies (counterexample below).  What holds: after `N` frames from an
empty trail, the colour at live slot `i` is
`getColor (min (i + k) (capacity − 1))` where `k = N − min N capacity`
counts the evictions so far — below capacity this is `getColor i`, as the
claim says, but after the first eviction slot 0 already carries
`getColor 1`. -/
theorem claim_C8_thm (sn : ℚ → ℚ) (e : Engine) (h0 : e.buf.count = 0) (N i : ℕ)
    (hi : i < min N maxPoints) :
    (engineRun sn e N).buf.col i
      = getColor ((min (i + (N - min N maxPoints)) (maxPoints - 1) : ℕ) : ℝ) :=
  (engineRun_spec sn e h0 N).2.2.2.2.2 i hi

/-- Claim C8, witness: the theorem instantiated at the startup engine
after one frame, slot 0. -/
theorem claim_C8_wit :
    (engineRun zeroSin initialEngine 1).buf.col 0
      = getColor ((min (0 + (1 - min 1 maxPoints)) (maxPoints - 1) : ℕ) : ℝ) :=
  claim_C8_thm zeroSin initialEngine rfl 1 0 (by decide)

/-- Claim C8, counterexample: one frame past capacity, slot 0 is live but
its stored colour is no longer the mapper output for slot 0 — the shift
moved `getColor 1` into it. -/
theorem claim_C8_cex :
    (engineRun zeroSin initialEngine (maxPoints + 1)).buf.col 0 ≠ getColor ((0 : ℕ) : ℝ) ∧
    0 < (engineRun zeroSin initialEngine (maxPoints + 1)).buf.count := by
  have hcol := (engineRun_spec zeroSin initialEngine rfl (maxPoints + 1)).2.2.2.2.2 0 (by decide)
  have hcnt := (engineRun_spec zeroSin initialEngine rfl (maxPoints + 1)).2.2.2.1
  constructor
  · rw [hcol]
    have h1 : min (0 + (maxPoints + 1 - min (maxPoints + 1) maxPoints)) (maxPoints - 1)
        = 1 := by decide
    rw [h1]
    exact getColor_one_ne_zero
  · rw [hcnt]
    decide

/-- Claim C9, confirmed.  For every integer slot index `i`, the colour
mapper repeats with period `capacity`:
`getColor (i + capacity) = getColor i` — the hue cycle is modular. -/
theorem claim_C9_thm (i : ℤ) :
    getColor ((i + (maxPoints : ℤ)) : ℝ) = getColor (i : ℝ) := by
  have hphi : ∀ t : ℝ, (t + (maxPoints : ℝ)) / (maxPoints : ℝ) * Real.pi * 2
      = t / (maxPoints : ℝ) * Real.pi * 2 + 2 * Real.pi := by
    intro t
    have h : (maxPoints : ℝ) ≠ 0 := by norm_num [maxPoints]
    field_simp
    ring
  unfold getColor
  push_cast
  rw [hphi]
  refine Prod.ext ?_ (Prod.ext ?_ ?_) <;> simp only []
  · rw [Real.sin_add_two_pi]
  · rw [show (i : ℝ) / (maxPoints : ℝ) * Real.pi * 2 + 2 * Real.pi + 2 * Real.pi / 3
        = ((i : ℝ) / (maxPoints : ℝ) * Real.pi * 2 + 2 * Real.pi / 3) + 2 * Real.pi by ring,
      Real.sin_add_two_pi]
  · rw [show (i : ℝ) / (maxPoints : ℝ) * Real.pi * 2 + 2 * Real.pi + 4 * Real.pi / 3
        = ((i : ℝ) / (maxPoints : ℝ) * Real.pi * 2 + 4 * Real.pi / 3) + 2 * Real.pi by ring,
      Real.sin_add_two_pi]

/-- Claim C10, confirmed.  With an active model identifier outside the
six-member set, `computeNextPoint` matches no `switch` case, the deltas
stay zero and the state is unchanged; the animation loop still appends
the unchanged point with its slot colour, the live count still grows
toward capacity, and no error is raised (the step function is total). -/
theorem claim_C10_thm (sn : ℚ → ℚ) (p : Params) (v : Vec3) (m : String)
    (hm : m ∉ sixModels) (e : Engine) (he : e.currentAttractor ∉ sixModels)
    (hcap : e.buf.count < maxPoints) :
    mainStep sn m p v = v ∧
    (animateStep sn e).x = e.x ∧ (animateStep sn e).y = e.y ∧ (animateStep sn e).z = e.z ∧
    (animateStep sn e).buf.count = e.buf.count + 1 ∧
    (animateStep sn e).buf.pos e.buf.count = ⟨e.x, e.y, e.z⟩ ∧
    (animateStep sn e).buf.col e.buf.count = getColor ((e.buf.count : ℕ) : ℝ) := by
  have hstep : mainStep sn e.currentAttractor e.params ⟨e.x, e.y, e.z⟩ = ⟨e.x, e.y, e.z⟩ :=
    mainStep_unknown sn e.currentAttractor e.params ⟨e.x, e.y, e.z⟩ he
  have hb : (animateStep sn e).buf = bufAppend maxPoints e.buf ⟨e.x, e.y, e.z⟩ := by
    show bufAppend maxPoints e.buf (mainStep sn e.currentAttractor e.params ⟨e.x, e.y, e.z⟩)
      = bufAppend maxPoints e.buf ⟨e.x, e.y, e.z⟩
    rw [hstep]
  refine ⟨mainStep_unknown sn m p v hm, ?_, ?_, ?_, ?_, ?_, ?_⟩
  · show (mainStep sn e.currentAttractor e.params ⟨e.x, e.y, e.z⟩).x = e.x
    rw [hstep]
  · show (mainStep sn e.currentAttractor e.params ⟨e.x, e.y, e.z⟩).y = e.y
    rw [hstep]
  · show (mainStep sn e.currentAttractor e.params ⟨e.x, e.y, e.z⟩).z = e.z
    rw [hstep]
  · rw [hb]
    simp [bufAppend, if_pos hcap]
  · rw [hb]
    simp [bufAppend, if_pos hcap]
  · rw [hb]
    simp [bufAppend, if_pos hcap]

/-- Claim C10, witness: the theorem instantiated at an engine whose
active model identifier is `'foo'`, with an empty trail. -/
theorem claim_C10_wit :
    mainStep zeroSin "foo" defaultParams ⟨1, 2, 3⟩ = ⟨1, 2, 3⟩ ∧
    (animateStep zeroSin fooEngine).x = fooEngine.x ∧
    (animateStep zeroSin fooEngine).y = fooEngine.y ∧
    (animateStep zeroSin fooEngine).z = fooEngine.z ∧
    (animateStep zeroSin fooEngine).buf.count = fooEngine.buf.count + 1 ∧
    (animateStep zeroSin fooEngine).buf.pos fooEngine.buf.count
      = ⟨fooEngine.x, fooEngine.y, fooEngine.z⟩ ∧
    (animateStep zeroSin fooEngine).buf.col fooEngine.buf.count
      = getColor ((fooEngine.buf.count : ℕ) : ℝ) :=
  claim_C10_thm zeroSin defaultParams ⟨1, 2, 3⟩ "foo" (by simp [sixModels])
    fooEngine (by simp [fooEngine, sixModels]) (by decide)
